import Mathlib

/-!
Verification of the Weather web application (src/app.py) against its
natural-language specification.

The Python source is shallowly embedded: JSON-like dictionaries become
association lists over an inductive value type, each outbound HTTP call is
parametrised by an environment describing the response of the external
service, and Python exceptions become an explicit `Except` layer that the
try/except blocks of the source discharge.
-/

namespace Weather

/-- A JSON-like value stored in a Python dictionary. Sub-payloads whose
structure is irrelevant to the properties (hourly blocks, the
current-conditions record, and so on) are modelled by opaque tokens. -/
inductive JVal where
  | str : String → JVal
  | num : Int → JVal
  | tok : Nat → JVal
deriving DecidableEq, Repr

/-- A Python dictionary with string keys, as an insertion-ordered
association list (keys are unique by construction of `dictSet`). -/
abbrev Dict := List (String × JVal)

/-- Python dictionary lookup `d[k]` (first matching key). -/
def dictLookup : Dict → String → Option JVal
  | [], _ => none
  | (k', v) :: rest, k => if k' = k then some v else dictLookup rest k

/-- Python dictionary assignment `d[k] = v`: replaces the value in place if
the key exists, otherwise appends. -/
def dictSet : Dict → String → JVal → Dict
  | [], k, v => [(k, v)]
  | (k', v') :: rest, k, v =>
      if k' = k then (k, v) :: rest else (k', v') :: dictSet rest k v

/-- `c_to_f` from src/app.py line 33: `(c_temp * 9 / 5) + 32`.
Temperatures are modelled as rationals. -/
def c_to_f (c_temp : ℚ) : ℚ := (c_temp * 9 / 5) + 32

/-- Gregorian leap-year test, as used by Python `datetime.date`. -/
def isLeap (y : Nat) : Bool := (y % 4 == 0 && y % 100 != 0) || (y % 400 == 0)

/-- Number of days in month `m` of year `y` (months are 1-based). -/
def daysInMonth (y m : Nat) : Nat :=
  if m = 2 then (if isLeap y then 29 else 28)
  else if m = 4 ∨ m = 6 ∨ m = 9 ∨ m = 11 then 30
  else 31

/-- Numeric value of a decimal digit character. -/
def digitVal (c : Char) : Nat := c.toNat - 48

/-- Year value of four digit characters. -/
def dateY (y1 y2 y3 y4 : Char) : Nat :=
  1000 * digitVal y1 + 100 * digitVal y2 + 10 * digitVal y3 + digitVal y4

/-- Two-digit value of two digit characters. -/
def dateTwo (c1 c2 : Char) : Nat := 10 * digitVal c1 + digitVal c2

/-- Parse a character list of the exact shape `YYYY-MM-DD` into a
calendar-valid `(year, month, day)` triple, as `datetime.strptime`
with format `%Y-%m-%d` does on such strings (any other input raises
there, hence `none` here). -/
def parseDateChars : List Char → Option (Nat × Nat × Nat)
  | [y1, y2, y3, y4, h1, mo1, mo2, h2, d1, d2] =>
      if y1.isDigit && y2.isDigit && y3.isDigit && y4.isDigit &&
         h1 == '-' && mo1.isDigit && mo2.isDigit && h2 == '-' &&
         d1.isDigit && d2.isDigit then
        if 1 ≤ dateY y1 y2 y3 y4 && 1 ≤ dateTwo mo1 mo2 && dateTwo mo1 mo2 ≤ 12 &&
           1 ≤ dateTwo d1 d2 &&
           dateTwo d1 d2 ≤ daysInMonth (dateY y1 y2 y3 y4) (dateTwo mo1 mo2) then
          some (dateY y1 y2 y3 y4, dateTwo mo1 mo2, dateTwo d1 d2)
        else none
      else none
  | _ => none

/-- Parse a `YYYY-MM-DD` string into a valid `(year, month, day)` triple. -/
def parseDate (s : String) : Option (Nat × Nat × Nat) := parseDateChars s.data

/-- Sakamoto day-of-week table. -/
def sakamotoT : List Nat := [0, 3, 2, 5, 0, 3, 5, 1, 4, 6, 2, 4]

/-- Day of week of a proleptic Gregorian date, 0 = Sunday, matching the
weekday that Python `datetime.strftime` renders with `%a`. -/
def weekday (y m d : Nat) : Nat :=
  let y' := if m < 3 then y - 1 else y
  (y' + y' / 4 - y' / 100 + y' / 400 + sakamotoT.getD (m - 1) 0 + d) % 7

/-- English three-letter weekday abbreviation, as strftime `%a` in the C
locale (0 = Sunday). -/
def dayAbbr : Nat → String
  | 0 => "Sun"
  | 1 => "Mon"
  | 2 => "Tue"
  | 3 => "Wed"
  | 4 => "Thu"
  | 5 => "Fri"
  | _ => "Sat"

/-- English three-letter month abbreviation, as strftime `%b` in the C
locale (months 1-based). -/
def monthAbbr : Nat → String
  | 1 => "Jan"
  | 2 => "Feb"
  | 3 => "Mar"
  | 4 => "Apr"
  | 5 => "May"
  | 6 => "Jun"
  | 7 => "Jul"
  | 8 => "Aug"
  | 9 => "Sep"
  | 10 => "Oct"
  | 11 => "Nov"
  | _ => "Dec"

/-- Zero-padded two-digit rendering, as strftime `%d`. -/
def pad2 (n : Nat) : String := if n < 10 then "0" ++ Nat.repr n else Nat.repr n

/-- `format_date_helper` from src/app.py line 38:
`datetime.strptime(date_str, %Y-%m-%d).strftime(%a, %b %d)`.
Returns `none` exactly when `strptime` raises `ValueError`. -/
def format_date_helper (s : String) : Option String :=
  (parseDate s).map (fun ymd =>
    dayAbbr (weekday ymd.1 ymd.2.1 ymd.2.2) ++ ", " ++
      monthAbbr ymd.2.1 ++ " " ++ pad2 ymd.2.2)

/-- A Python exception reaching a given program point. -/
inductive PyExn where
  | transport
  | httpStatus
  | jsonDecode
  | indexError
  | keyError : String → PyExn
  | unknownTimeZone : String → PyExn
  | typeError
deriving DecidableEq, Repr

/-- The dictionary returned by `geocode_city` on success (latitude,
longitude, and the formatted `location_name`). -/
structure Location where
  latitude : ℚ
  longitude : ℚ
  location_name : String
deriving DecidableEq, Repr

/-- One element of the `results` array of a geocoding response. Every field
a Python `result[...]` access may find missing is an `Option`. -/
structure GeoResult where
  name : Option String
  latitude : Option ℚ
  longitude : Option ℚ
  admin1 : Option String
  country : Option String
deriving Repr

/-- The behaviour of the geocoding service on one request: whether
`requests.get` raises, the HTTP status code, whether `.json()` raises, and
the `results` key of the decoded body (`none` when the key is absent). -/
structure GeoEnv where
  transportFail : Bool
  status : Nat
  jsonFail : Bool
  results : Option (List GeoResult)

/-- Read a dictionary field, raising `KeyError` when it is missing. -/
def getKey (k : String) : Option α → Except PyExn α
  | some v => Except.ok v
  | none => Except.error (PyExn.keyError k)

/-- The body of the `try` block of `geocode_city` (src/app.py lines 61-77):
`requests.get`, `raise_for_status` (raises for statuses 400-599), `.json()`,
the `results` presence test, indexing `results[0]`, and construction of the
returned dictionary. Field accesses follow Python evaluation order; the
default argument of `result.get` is evaluated eagerly, so a missing
`country` raises even when `admin1` is present. -/
def geocode_body (env : GeoEnv) : Except PyExn (Option Location) :=
  if env.transportFail then Except.error PyExn.transport
  else if 400 ≤ env.status ∧ env.status < 600 then Except.error PyExn.httpStatus
  else if env.jsonFail then Except.error PyExn.jsonDecode
  else
    match env.results with
    | none => Except.ok none
    | some [] => Except.error PyExn.indexError
    | some (r :: _) =>
        match getKey "latitude" r.latitude with
        | Except.error e => Except.error e
        | Except.ok lat =>
        match getKey "longitude" r.longitude with
        | Except.error e => Except.error e
        | Except.ok lon =>
        match getKey "name" r.name with
        | Except.error e => Except.error e
        | Except.ok nm =>
        match getKey "country" r.country with
        | Except.error e => Except.error e
        | Except.ok ctry =>
          Except.ok (some ⟨lat, lon, nm ++ ", " ++ r.admin1.getD ctry⟩)

/-- `geocode_city` from src/app.py lines 59-80: the `try` body with every
exception caught, logged, and converted to `None`. -/
def geocode_city (env : GeoEnv) : Option Location :=
  match geocode_body env with
  | Except.ok v => v
  | Except.error _ => none

/-- The behaviour of the forecast service on one outbound request of
`get_weather_data`: whether `requests.get` raises, the HTTP status,
whether `.json()` raises, and the decoded payload. -/
structure WeatherEnv where
  transportFail : Bool
  status : Nat
  jsonFail : Bool
  payload : Dict

/-- The body of `get_weather_data` (src/app.py lines 86-101) without the
memoization layer: one outbound call, `raise_for_status`, `.json()`, with
every exception caught and converted to `None`. -/
def get_weather_body (env : WeatherEnv) : Option Dict :=
  if env.transportFail then none
  else if 400 ≤ env.status ∧ env.status < 600 then none
  else if env.jsonFail then none
  else some env.payload

/-- A memoization key: the exact `(lat, lon, units)` argument tuple. -/
abbrev CacheKey := ℚ × ℚ × String

/-- The `SimpleCache` store: key, stored Python object (the memoized return
value, possibly `None`), and absolute expiry time in seconds. -/
abbrev CacheStore := List (CacheKey × Option Dict × Nat)

/-- `SimpleCache.get`: returns the stored object while `expires == 0 or
expires > time()`, else a miss. -/
def cacheGet : CacheStore → CacheKey → Nat → Option (Option Dict)
  | [], _, _ => none
  | (k', v, exp) :: rest, k, now =>
      if k' = k then (if exp = 0 ∨ now < exp then some v else none)
      else cacheGet rest k now

/-- `SimpleCache.set`: store `v` under `k` expiring at `exp`, replacing any
previous entry for `k`. -/
def cacheSet : CacheStore → CacheKey → Option Dict → Nat → CacheStore
  | [], k, v, exp => [(k, v, exp)]
  | e :: rest, k, v, exp =>
      if e.1 = k then (k, v, exp) :: rest else e :: cacheSet rest k v exp

/-- The mutable state behind the memoized `get_weather_data`: the shared
cache plus a count of outbound HTTP calls made so far (the observable the
caching claims are about). -/
structure WState where
  cache : CacheStore
  calls : Nat
deriving Repr

/-- `get_weather_data` from src/app.py lines 83-101 with its
`@cache.memoize()` decorator (CACHE_DEFAULT_TIMEOUT 300, src/app.py line
11): look the argument tuple up in the cache; a stored non-`None` value is
returned as is; otherwise run the body (one outbound call, whose service
behaviour is `fetch st.calls`) and store its result for 300 seconds.
`memoize` treats a stored `None` like a miss, matching flask_caching. -/
def get_weather_data (fetch : Nat → WeatherEnv) (st : WState) (now : Nat)
    (lat lon : ℚ) (units : String) : Option Dict × WState :=
  let k : CacheKey := (lat, lon, units)
  match cacheGet st.cache k now with
  | some (some v) => (some v, st)
  | _ =>
      let rv := get_weather_body (fetch st.calls)
      (rv, ⟨cacheSet st.cache k rv (now + 300), st.calls + 1⟩)

/-- The query parameters of one `GET /` request: `request.args.get` yields
`none` when a parameter is absent. -/
structure ReqArgs where
  location : Option String
  units : Option String
deriving Repr

/-- Python truthiness of an optional string (`if location_query:`): false
for `None` and for the empty string. -/
def truthyOptStr : Option String → Bool
  | none => false
  | some s => !(s == "")

/-- The timestamp the page is rendered with: either the server-local
`datetime.now()` or `datetime.now(pytz.timezone(tz))`. -/
inductive TimeVal where
  | server
  | inZone : String → TimeVal
deriving DecidableEq, Repr

/-- The values `render_template` receives (src/app.py lines 129-138). -/
structure Rendered where
  weather_data : Option Dict
  error : Option String
  location_query : Option String
  units : String
  now : TimeVal
  current : Option JVal
  daily : Option JVal
deriving Repr

/-- The externals the handler interacts with on one request: the (total)
result of `geocode_city` for a query, the (total) result of
`get_weather_data` for an argument tuple, and the set of timezone
identifiers `pytz.timezone` accepts. -/
structure HandlerEnv where
  geocode : String → Option Location
  get_weather : ℚ → ℚ → String → Option Dict
  pytzValid : String → Bool

/-- How many geocoding and weather calls the handler issued. -/
structure Trace where
  geocodeCalls : Nat
  weatherCalls : Nat
deriving DecidableEq, Repr

/-- `pytz.timezone(v)` (src/app.py line 126): ok for a string naming a
known timezone, `UnknownTimeZoneError` for an unknown string, and a raise
for a non-string value. Uncaught in the handler. -/
def pytz_timezone (env : HandlerEnv) : JVal → Except PyExn TimeVal
  | JVal.str tz =>
      if env.pytzValid tz then Except.ok (TimeVal.inZone tz)
      else Except.error (PyExn.unknownTimeZone tz)
  | _ => Except.error PyExn.typeError

/-- The `index` handler, src/app.py lines 104-138. Returns the rendered
values and the call trace, or the exception that escaped the handler.
Mirrors the source line by line: parameter parsing with default units
`metric`; the truthiness-guarded geocode and weather calls with their
error strings; the `locationName` mutation of a truthy payload; the
timezone-aware `now` (an invalid identifier raises); and the
`current_weather` and `daily` extractions (a missing key raises). -/
def index (env : HandlerEnv) (args : ReqArgs) : Except PyExn (Rendered × Trace) :=
  let location_query := args.location
  let units := args.units.getD "metric"
  let step : Option Dict × Option String × Trace :=
    if truthyOptStr location_query then
      match env.geocode (location_query.getD "") with
      | some geo =>
          match env.get_weather geo.latitude geo.longitude units with
          | some wd =>
              if wd.isEmpty then
                (some wd,
                 some ("Could not fetch weather for \x27" ++ geo.location_name ++ "\x27."),
                 ⟨1, 1⟩)
              else
                (some (dictSet wd "locationName" (JVal.str geo.location_name)),
                 none, ⟨1, 1⟩)
          | none =>
              (none,
               some ("Could not fetch weather for \x27" ++ geo.location_name ++ "\x27."),
               ⟨1, 1⟩)
      | none =>
          (none,
           some ("Could not find \x27" ++ location_query.getD "" ++ "\x27. Try another city."),
           ⟨1, 0⟩)
    else (none, none, ⟨0, 0⟩)
  match step with
  | (weather_data, error, tr) =>
    let nowE : Except PyExn TimeVal :=
      match weather_data with
      | some wd =>
          if wd.isEmpty then Except.ok TimeVal.server
          else
            match dictLookup wd "timezone" with
            | some v => pytz_timezone env v
            | none => Except.ok TimeVal.server
      | none => Except.ok TimeVal.server
    let currentE : Except PyExn (Option JVal) :=
      match weather_data with
      | some wd =>
          if wd.isEmpty then Except.ok none
          else
            match dictLookup wd "current_weather" with
            | some v => Except.ok (some v)
            | none => Except.error (PyExn.keyError "current_weather")
      | none => Except.ok none
    let dailyE : Except PyExn (Option JVal) :=
      match weather_data with
      | some wd =>
          if wd.isEmpty then Except.ok none
          else
            match dictLookup wd "daily" with
            | some v => Except.ok (some v)
            | none => Except.error (PyExn.keyError "daily")
      | none => Except.ok none
    match nowE with
    | Except.error e => Except.error e
    | Except.ok now =>
      match currentE with
      | Except.error e => Except.error e
      | Except.ok current =>
        match dailyE with
        | Except.error e => Except.error e
        | Except.ok daily =>
            Except.ok (⟨weather_data, error, location_query, units, now, current, daily⟩, tr)

/-! ## Helper lemmas -/

theorem dictSet_ne_nil (d : Dict) (k : String) (v : JVal) : dictSet d k v ≠ [] := by
  cases d with
  | nil => simp [dictSet]
  | cons e rest =>
      unfold dictSet
      split <;> simp

theorem dictLookup_dictSet_ne (d : Dict) (k k' : String) (v : JVal) (h : k' ≠ k) :
    dictLookup (dictSet d k v) k' = dictLookup d k' := by
  induction d with
  | nil => simp [dictSet, dictLookup, Ne.symm h]
  | cons e rest ih =>
      rcases e with ⟨ek, ev⟩
      unfold dictSet
      by_cases he : ek = k
      · subst he
        simp [dictLookup, Ne.symm h]
      · simp only [he, if_false, dictLookup, ih]

theorem daysInMonth_le_31 (y m : Nat) : daysInMonth y m ≤ 31 := by
  unfold daysInMonth
  split_ifs <;> omega

theorem dayAbbr_length (n : Nat) : (dayAbbr n).length = 3 := by
  unfold dayAbbr
  split <;> rfl

theorem monthAbbr_length (n : Nat) : (monthAbbr n).length = 3 := by
  unfold monthAbbr
  split <;> rfl

theorem pad2_length (n : Nat) (h : n ≤ 99) : (pad2 n).length = 2 := by
  have h1 : ∀ m, m < 10 → (pad2 m).length = 2 := by decide
  have h2 : ∀ m, m < 100 → 9 < m → (pad2 m).length = 2 := by decide
  by_cases h10 : n < 10
  · exact h1 n h10
  · exact h2 n (by omega) (by omega)

theorem parseDateChars_bounds {cs : List Char} {y m d : Nat}
    (h : parseDateChars cs = some (y, m, d)) :
    1 ≤ y ∧ 1 ≤ m ∧ m ≤ 12 ∧ 1 ≤ d ∧ d ≤ 31 := by
  unfold parseDateChars at h
  split at h
  · rename_i y1 y2 y3 y4 c1 mo1 mo2 c2 d1 d2
    split at h
    · split at h
      · rename_i hguard
        simp only [Bool.and_eq_true, decide_eq_true_eq] at hguard
        obtain ⟨⟨⟨⟨hy1, hm1⟩, hm12⟩, hd1⟩, hdm⟩ := hguard
        have hle := daysInMonth_le_31 (dateY y1 y2 y3 y4) (dateTwo mo1 mo2)
        injection h with h'
        simp only [Prod.mk.injEq] at h'
        obtain ⟨ey, em, ed⟩ := h'
        subst ey; subst em; subst ed
        exact ⟨hy1, hm1, hm12, hd1, le_trans hdm hle⟩
      · exact absurd h (by simp)
    · exact absurd h (by simp)
  · exact absurd h (by simp)

theorem cacheGet_cacheSet (c : CacheStore) (k : CacheKey) (v : Option Dict)
    (exp now : Nat) :
    cacheGet (cacheSet c k v exp) k now =
      if exp = 0 ∨ now < exp then some v else none := by
  induction c with
  | nil => simp [cacheSet, cacheGet]
  | cons e rest ih =>
      rcases e with ⟨ek, ev, eexp⟩
      unfold cacheSet
      by_cases he : ek = k
      · simp [he, cacheGet]
      · simp only [he, if_false, cacheGet, ih]

/-! ## Claim theorems -/

/-- Claim C8: for all Celsius values c, `c_to_f c` equals `c*9/5 + 32`
exactly. -/
theorem c_to_f_spec (c : ℚ) : c_to_f c = c * 9 / 5 + 32 := rfl

/-- Claim C6: a request with no `location` query parameter renders with
`weather_data = None` and `error = None` and makes no geocoding or weather
call. -/
theorem index_no_location (env : HandlerEnv) (u : Option String) :
    index env ⟨none, u⟩ =
      Except.ok (⟨none, none, none, u.getD "metric", TimeVal.server, none, none⟩, ⟨0, 0⟩) := rfl

/-- Claim C10: a request whose `location` parameter is present but equal to
the empty string makes no geocoding call and renders with
`weather_data = None` and `error = None`, exactly as when the parameter is
absent (the only difference being the echoed `location_query`). -/
theorem index_empty_location (env : HandlerEnv) (u : Option String) :
    index env ⟨some "", u⟩ =
      Except.ok (⟨none, none, some "", u.getD "metric", TimeVal.server, none, none⟩, ⟨0, 0⟩) := rfl

/-- Claim C9: for every valid `YYYY-MM-DD` string, `format_date_helper`
returns a three-letter weekday, a comma and space, a three-letter month, a
space, and a two-digit day; for example `2024-03-05` maps to
`Tue, Mar 05`. -/
theorem format_date_helper_spec (s : String) (y m d : Nat)
    (h : parseDate s = some (y, m, d)) :
    (∃ wa ma da, format_date_helper s = some (wa ++ ", " ++ ma ++ " " ++ da) ∧
       wa.length = 3 ∧ ma.length = 3 ∧ da.length = 2) ∧
    format_date_helper "2024-03-05" = some "Tue, Mar 05" := by
  constructor
  · obtain ⟨-, -, -, -, hd31⟩ := parseDateChars_bounds h
    refine ⟨dayAbbr (weekday y m d), monthAbbr m, pad2 d, ?_, dayAbbr_length _,
      monthAbbr_length _, pad2_length d (by omega)⟩
    simp [format_date_helper, h]
  · rfl

/-- Helper for Claim C9 at the concrete date 2024-03-05. -/
theorem format_date_helper_spec_witness :
    parseDate "2024-03-05" = some (2024, 3, 5) ∧
    ((∃ wa ma da,
        format_date_helper "2024-03-05" = some (wa ++ ", " ++ ma ++ " " ++ da) ∧
        wa.length = 3 ∧ ma.length = 3 ∧ da.length = 2) ∧
      format_date_helper "2024-03-05" = some "Tue, Mar 05") :=
  ⟨rfl, format_date_helper_spec "2024-03-05" 2024 3 5 rfl⟩

/-- Claim C5: when geocoding returns absent for a provided (truthy)
location query, the page renders with the error string
`Could not find <quoted query>. Try another city.` and no weather data. -/
theorem index_geocode_absent (env : HandlerEnv) (args : ReqArgs) (q : String)
    (hq : args.location = some q) (hne : q ≠ "")
    (hgeo : env.geocode q = none) :
    index env args =
      Except.ok
        (⟨none, some ("Could not find \x27" ++ q ++ "\x27. Try another city."),
          some q, args.units.getD "metric", TimeVal.server, none, none⟩, ⟨1, 0⟩) := by
  simp [index, hq, truthyOptStr, hne, hgeo]

/-- Helper for Claim C5 at the spec example query `Nowhereville`. -/
theorem index_geocode_absent_witness :
    index ⟨fun _ => none, fun _ _ _ => none, fun _ => true⟩ ⟨some "Nowhereville", none⟩ =
      Except.ok
        (⟨none, some ("Could not find \x27" ++ "Nowhereville" ++ "\x27. Try another city."),
          some "Nowhereville", (none : Option String).getD "metric",
          TimeVal.server, none, none⟩, ⟨1, 0⟩) :=
  index_geocode_absent _ _ "Nowhereville" rfl (by decide) rfl

/-- Claim C4: on a successful geocoding response, the display name is
`<name>, <admin1>` when the first result carries an `admin1` label, and
`<name>, <country>` otherwise. -/
theorem geocode_city_display_name (env : GeoEnv) (r : GeoResult)
    (rest : List GeoResult) (lat lon : ℚ) (nm ctry : String)
    (htf : env.transportFail = false)
    (hst : ¬(400 ≤ env.status ∧ env.status < 600))
    (hjf : env.jsonFail = false)
    (hres : env.results = some (r :: rest))
    (hlat : r.latitude = some lat) (hlon : r.longitude = some lon)
    (hnm : r.name = some nm) (hctry : r.country = some ctry) :
    (∀ a, r.admin1 = some a →
       geocode_city env = some ⟨lat, lon, nm ++ ", " ++ a⟩) ∧
    (r.admin1 = none →
       geocode_city env = some ⟨lat, lon, nm ++ ", " ++ ctry⟩) := by
  constructor
  · intro a ha
    simp [geocode_city, geocode_body, htf, hst, hjf, hres, hlat, hlon, hnm, hctry,
      getKey, ha]
  · intro ha
    simp [geocode_city, geocode_body, htf, hst, hjf, hres, hlat, hlon, hnm, hctry,
      getKey, ha]

/-- Helper for Claim C4 at the spec examples for Paris. -/
theorem geocode_city_display_name_witness :
    geocode_city ⟨false, 200, false,
        some [⟨some "Paris", some 48.85, some 2.35, some "Ile-de-France", some "France"⟩]⟩ =
      some ⟨48.85, 2.35, "Paris" ++ ", " ++ "Ile-de-France"⟩ ∧
    geocode_city ⟨false, 200, false,
        some [⟨some "Paris", some 48.85, some 2.35, none, some "France"⟩]⟩ =
      some ⟨48.85, 2.35, "Paris" ++ ", " ++ "France"⟩ :=
  ⟨(geocode_city_display_name _ _ [] 48.85 2.35 "Paris" "France" rfl (by decide) rfl
      rfl rfl rfl rfl rfl).1 "Ile-de-France" rfl,
   (geocode_city_display_name _ _ [] 48.85 2.35 "Paris" "France" rfl (by decide) rfl
      rfl rfl rfl rfl rfl).2 rfl⟩

/-- Claim C3: `geocode_city` is total: it always returns a `Location` or
absent, and in particular returns absent on transport failure, on a
non-success HTTP status (one `raise_for_status` raises for), and on a
response containing no results (missing or empty `results`). -/
theorem geocode_city_total (env : GeoEnv) :
    (geocode_city env = none ∨ ∃ loc, geocode_city env = some loc) ∧
    (env.transportFail = true → geocode_city env = none) ∧
    (400 ≤ env.status → env.status < 600 → geocode_city env = none) ∧
    (env.results = none ∨ env.results = some [] → geocode_city env = none) := by
  refine ⟨?_, ?_, ?_, ?_⟩
  · cases hg : geocode_city env with
    | none => exact Or.inl rfl
    | some loc => exact Or.inr ⟨loc, rfl⟩
  · intro htf
    simp [geocode_city, geocode_body, htf]
  · intro h4 h6
    cases htf : env.transportFail <;>
      simp [geocode_city, geocode_body, htf, h4, h6]
  · intro hres
    cases htf : env.transportFail <;> cases hjf : env.jsonFail <;>
      rcases hres with h | h <;>
        simp [geocode_city, geocode_body, htf, hjf, h] <;>
          split_ifs <;> simp

/-- Helper for Claim C3 at concrete failing responses. -/
theorem geocode_city_total_witness :
    geocode_city ⟨true, 200, false, some []⟩ = none ∧
    geocode_city ⟨false, 404, false, some []⟩ = none ∧
    geocode_city ⟨false, 200, false, none⟩ = none ∧
    geocode_city ⟨false, 200, false, some []⟩ = none :=
  ⟨(geocode_city_total _).2.1 rfl,
   (geocode_city_total _).2.2.1 (by decide) (by decide),
   (geocode_city_total _).2.2.2 (Or.inl rfl),
   (geocode_city_total _).2.2.2 (Or.inr rfl)⟩

/-- Claim C2: if the first call to `get_weather_data` with a given
`(lat, lon, units)` tuple fetches a payload at time `t1` and the same
tuple is requested again at a time `t2` inside the 5-minute expiry
window, the second call returns the payload fetched by the first and
performs no second outbound HTTP call (the state, including the
outbound-call count, is unchanged, and exactly one call was made in
total). -/
theorem get_weather_data_cache_hit (fetch : Nat → WeatherEnv) (st0 : WState)
    (t1 t2 : Nat) (lat lon : ℚ) (units : String) (v : Dict)
    (hmiss : cacheGet st0.cache (lat, lon, units) t1 = none ∨
             cacheGet st0.cache (lat, lon, units) t1 = some none)
    (hfetch : get_weather_body (fetch st0.calls) = some v)
    (h12 : t1 ≤ t2) (hwin : t2 < t1 + 300) :
    (get_weather_data fetch st0 t1 lat lon units).1 = some v ∧
    (get_weather_data fetch st0 t1 lat lon units).2.calls = st0.calls + 1 ∧
    get_weather_data fetch (get_weather_data fetch st0 t1 lat lon units).2
        t2 lat lon units =
      (some v, (get_weather_data fetch st0 t1 lat lon units).2) := by
  have hfirst : get_weather_data fetch st0 t1 lat lon units =
      (some v, ⟨cacheSet st0.cache (lat, lon, units) (some v) (t1 + 300),
        st0.calls + 1⟩) := by
    rcases hmiss with h | h <;> simp [get_weather_data, h, hfetch]
  rw [hfirst]
  refine ⟨rfl, rfl, ?_⟩
  have hget : cacheGet (cacheSet st0.cache (lat, lon, units) (some v) (t1 + 300))
      (lat, lon, units) t2 = some (some v) := by
    rw [cacheGet_cacheSet]
    simp [hwin]
  simp [get_weather_data, hget]

/-- Helper for Claim C2 at a concrete fetch, starting from an empty cache
with the second call 100 seconds after the first. -/
theorem get_weather_data_cache_hit_witness :
    (get_weather_data (fun _ => ⟨false, 200, false, [("t", JVal.num 1)]⟩)
        ⟨[], 0⟩ 1000 1 2 "metric").1 = some [("t", JVal.num 1)] ∧
    (get_weather_data (fun _ => ⟨false, 200, false, [("t", JVal.num 1)]⟩)
        ⟨[], 0⟩ 1000 1 2 "metric").2.calls = 0 + 1 ∧
    get_weather_data (fun _ => ⟨false, 200, false, [("t", JVal.num 1)]⟩)
        (get_weather_data (fun _ => ⟨false, 200, false, [("t", JVal.num 1)]⟩)
          ⟨[], 0⟩ 1000 1 2 "metric").2 1100 1 2 "metric" =
      (some [("t", JVal.num 1)],
       (get_weather_data (fun _ => ⟨false, 200, false, [("t", JVal.num 1)]⟩)
          ⟨[], 0⟩ 1000 1 2 "metric").2) :=
  get_weather_data_cache_hit (fun _ => ⟨false, 200, false, [("t", JVal.num 1)]⟩)
    ⟨[], 0⟩ 1000 1100 1 2 "metric" [("t", JVal.num 1)] (Or.inl rfl) (by decide)
    (by decide) (by decide)

/-- Claim C7: when the handler obtains a forecast payload, the only
mutation performed on it before it reaches the view is attaching the
resolved display name under the `locationName` key: the rendered
`weather_data` is exactly the fetched payload with `locationName` set, and
every other key reads back unchanged. -/
theorem index_mutates_only_locationName (env : HandlerEnv) (args : ReqArgs)
    (q : String) (geo : Location) (wd : Dict)
    (hq : args.location = some q) (hne : q ≠ "")
    (hgeo : env.geocode q = some geo)
    (hwd : env.get_weather geo.latitude geo.longitude (args.units.getD "metric") = some wd)
    (hnonempty : wd ≠ []) :
    (∀ r tr, index env args = Except.ok (r, tr) →
       r.weather_data = some (dictSet wd "locationName" (JVal.str geo.location_name))) ∧
    (∀ k, k ≠ "locationName" →
       dictLookup (dictSet wd "locationName" (JVal.str geo.location_name)) k =
         dictLookup wd k) := by
  constructor
  · intro r tr h
    simp only [index, hq, truthyOptStr, hne, bne_iff_ne, ne_eq, not_false_eq_true,
      Option.getD_some, hgeo, hwd, List.isEmpty_eq_true, hnonempty, if_false,
      Bool.not_eq_true', beq_eq_false_iff_ne, if_true] at h
    split at h
    · exact absurd h (by simp)
    · split at h
      · exact absurd h (by simp)
      · split at h
        · exact absurd h (by simp)
        · injection h with h'
          have := congrArg Prod.fst h'
          simp only at this
          rw [← this]
  · intro k hk
    exact dictLookup_dictSet_ne wd "locationName" k (JVal.str geo.location_name) hk

/-- Helper for Claim C7 at a concrete request for Paris with a two-key
payload. -/
theorem index_mutates_only_locationName_witness :
    (∀ r tr,
       index ⟨fun _ => some ⟨48, 2, "Paris, Ile-de-France"⟩,
              fun _ _ _ => some [("current_weather", JVal.tok 0), ("daily", JVal.tok 1)],
              fun _ => true⟩ ⟨some "Paris", none⟩ = Except.ok (r, tr) →
       r.weather_data =
         some (dictSet [("current_weather", JVal.tok 0), ("daily", JVal.tok 1)]
           "locationName" (JVal.str "Paris, Ile-de-France"))) ∧
    (∀ k, k ≠ "locationName" →
       dictLookup (dictSet [("current_weather", JVal.tok 0), ("daily", JVal.tok 1)]
           "locationName" (JVal.str "Paris, Ile-de-France")) k =
         dictLookup [("current_weather", JVal.tok 0), ("daily", JVal.tok 1)] k) :=
  index_mutates_only_locationName
    ⟨fun _ => some ⟨48, 2, "Paris, Ile-de-France"⟩,
     fun _ _ _ => some [("current_weather", JVal.tok 0), ("daily", JVal.tok 1)],
     fun _ => true⟩
    ⟨some "Paris", none⟩ "Paris" ⟨48, 2, "Paris, Ile-de-France"⟩
    [("current_weather", JVal.tok 0), ("daily", JVal.tok 1)]
    rfl (by decide) rfl rfl (by decide)

/-- Claim C1 as stated is false on the code: the handler reads
`weather_data[current_weather]` (src/app.py line 136) outside any
try/except, so a successfully fetched payload lacking that key raises an
uncaught `KeyError` instead of rendering a page. Concretely: geocoding
succeeds, the weather fetch returns the payload `{temp: 20}`, and the
handler raises. -/
theorem index_uncaught_keyerror :
    index ⟨fun _ => some ⟨48, 2, "Paris, Ile-de-France"⟩,
           fun _ _ _ => some [("temp", JVal.num 20)],
           fun _ => true⟩ ⟨some "Paris", none⟩ =
      Except.error (PyExn.keyError "current_weather") := rfl

/-- Claim C1 (amended): for every request, provided each fetched truthy
forecast payload carries `current_weather` and `daily` keys and any
`timezone` value it carries is a string naming a pytz-known timezone, the
handler returns a rendered page, and each failure of geocoding or of the
weather fetch is converted to its user-facing error string with weather
data absent. Without that shape assumption the handler can raise (see the
counterexample). -/
theorem index_total_amended (env : HandlerEnv) (args : ReqArgs)
    (hwf : ∀ lat lon u wd, env.get_weather lat lon u = some wd → wd ≠ [] →
        ((dictLookup wd "current_weather").isSome ∧
         (dictLookup wd "daily").isSome ∧
         ∀ v, dictLookup wd "timezone" = some v →
           ∃ tz, v = JVal.str tz ∧ env.pytzValid tz = true)) :
    ∃ r tr, index env args = Except.ok (r, tr) ∧
      (∀ q, args.location = some q → q ≠ "" → env.geocode q = none →
         r.weather_data = none ∧
         r.error = some ("Could not find \x27" ++ q ++ "\x27. Try another city.")) ∧
      (∀ q geo, args.location = some q → q ≠ "" → env.geocode q = some geo →
         env.get_weather geo.latitude geo.longitude (args.units.getD "metric") = none →
         r.weather_data = none ∧
         r.error = some ("Could not fetch weather for \x27" ++
           geo.location_name ++ "\x27.")) := by
  obtain ⟨loc, u⟩ := args
  rcases loc with _ | q
  · refine ⟨⟨none, none, none, u.getD "metric", TimeVal.server, none, none⟩, ⟨0, 0⟩,
      rfl, ?_, ?_⟩
    · intro q h1
      exact nomatch h1
    · intro q geo h1
      exact nomatch h1
  · by_cases hq : q = ""
    · subst hq
      refine ⟨⟨none, none, some "", u.getD "metric", TimeVal.server, none, none⟩,
        ⟨0, 0⟩, rfl, ?_, ?_⟩
      · intro q' h1 h2 h3
        injection h1 with e
        exact absurd e.symm h2
      · intro q' geo h1 h2 h3 h4
        injection h1 with e
        exact absurd e.symm h2
    · cases hgeo : env.geocode q with
      | none =>
          refine ⟨⟨none,
            some ("Could not find \x27" ++ q ++ "\x27. Try another city."),
            some q, u.getD "metric", TimeVal.server, none, none⟩, ⟨1, 0⟩, ?_, ?_, ?_⟩
          · simp [index, truthyOptStr, hq, hgeo]
          · intro q' h1 h2 h3
            injection h1 with e
            subst e
            exact ⟨rfl, rfl⟩
          · intro q' geo h1 h2 h3 h4
            injection h1 with e
            subst e
            rw [hgeo] at h3
            exact nomatch h3
      | some geo =>
          cases hwd : env.get_weather geo.latitude geo.longitude (u.getD "metric") with
          | none =>
              refine ⟨⟨none,
                some ("Could not fetch weather for \x27" ++ geo.location_name ++ "\x27."),
                some q, u.getD "metric", TimeVal.server, none, none⟩, ⟨1, 1⟩, ?_, ?_, ?_⟩
              · simp [index, truthyOptStr, hq, hgeo, hwd]
              · intro q' h1 h2 h3
                injection h1 with e
                subst e
                rw [hgeo] at h3
                exact nomatch h3
              · intro q' geo' h1 h2 h3 h4
                injection h1 with e
                subst e
                rw [hgeo] at h3
                injection h3 with e2
                subst e2
                exact ⟨rfl, rfl⟩
          | some wd =>
              by_cases hemp : wd = []
              · subst hemp
                refine ⟨⟨some [],
                  some ("Could not fetch weather for \x27" ++ geo.location_name ++ "\x27."),
                  some q, u.getD "metric", TimeVal.server, none, none⟩, ⟨1, 1⟩, ?_, ?_, ?_⟩
                · simp [index, truthyOptStr, hq, hgeo, hwd]
                · intro q' h1 h2 h3
                  injection h1 with e
                  subst e
                  rw [hgeo] at h3
                  exact nomatch h3
                · intro q' geo' h1 h2 h3 h4
                  injection h1 with e
                  subst e
                  rw [hgeo] at h3
                  injection h3 with e2
                  subst e2
                  rw [hwd] at h4
                  exact nomatch h4
              · obtain ⟨hcw, hdy, htz⟩ := hwf _ _ _ wd hwd hemp
                obtain ⟨cv, hcv⟩ := Option.isSome_iff_exists.mp hcw
                obtain ⟨dv, hdv⟩ := Option.isSome_iff_exists.mp hdy
                have l1 : dictLookup (dictSet wd "locationName"
                    (JVal.str geo.location_name)) "timezone" =
                    dictLookup wd "timezone" :=
                  dictLookup_dictSet_ne _ _ _ _ (by decide)
                have l2 : dictLookup (dictSet wd "locationName"
                    (JVal.str geo.location_name)) "current_weather" =
                    dictLookup wd "current_weather" :=
                  dictLookup_dictSet_ne _ _ _ _ (by decide)
                have l3 : dictLookup (dictSet wd "locationName"
                    (JVal.str geo.location_name)) "daily" =
                    dictLookup wd "daily" :=
                  dictLookup_dictSet_ne _ _ _ _ (by decide)
                have hsetne := dictSet_ne_nil wd "locationName" (JVal.str geo.location_name)
                rcases httz : dictLookup wd "timezone" with _ | v
                · refine ⟨⟨some (dictSet wd "locationName" (JVal.str geo.location_name)),
                    none, some q, u.getD "metric", TimeVal.server, some cv, some dv⟩,
                    ⟨1, 1⟩, ?_, ?_, ?_⟩
                  · simp [index, truthyOptStr, hq, hgeo, hwd, hemp, hsetne,
                      l1, l2, l3, httz, hcv, hdv]
                  · intro q' h1 h2 h3
                    injection h1 with e
                    subst e
                    rw [hgeo] at h3
                    exact nomatch h3
                  · intro q' geo' h1 h2 h3 h4
                    injection h1 with e
                    subst e
                    rw [hgeo] at h3
                    injection h3 with e2
                    subst e2
                    rw [hwd] at h4
                    exact nomatch h4
                · obtain ⟨tz, rfl, hvalid⟩ := htz v httz
                  refine ⟨⟨some (dictSet wd "locationName" (JVal.str geo.location_name)),
                    none, some q, u.getD "metric", TimeVal.inZone tz, some cv, some dv⟩,
                    ⟨1, 1⟩, ?_, ?_, ?_⟩
                  · simp [index, truthyOptStr, hq, hgeo, hwd, hemp, hsetne,
                      l1, l2, l3, httz, hcv, hdv, pytz_timezone, hvalid]
                  · intro q' h1 h2 h3
                    injection h1 with e
                    subst e
                    rw [hgeo] at h3
                    exact nomatch h3
                  · intro q' geo' h1 h2 h3 h4
                    injection h1 with e
                    subst e
                    rw [hgeo] at h3
                    injection h3 with e2
                    subst e2
                    rw [hwd] at h4
                    exact nomatch h4

/-- Helper for Claim C1 (amended) at a concrete request whose geocoding
finds nothing: the page still renders, carrying the not-found error. -/
theorem index_total_amended_witness :
    ∃ r tr,
      index ⟨fun _ => none, fun _ _ _ => none, fun _ => true⟩
          ⟨some "Atlantis", none⟩ = Except.ok (r, tr) ∧
      (∀ q, (some "Atlantis" : Option String) = some q → q ≠ "" →
         (none : Option Location) = none →
         r.weather_data = none ∧
         r.error = some ("Could not find \x27" ++ q ++ "\x27. Try another city.")) ∧
      (∀ q geo, (some "Atlantis" : Option String) = some q → q ≠ "" →
         (none : Option Location) = some geo →
         (none : Option Dict) = none →
         r.weather_data = none ∧
         r.error = some ("Could not fetch weather for \x27" ++
           geo.location_name ++ "\x27.")) :=
  index_total_amended ⟨fun _ => none, fun _ _ _ => none, fun _ => true⟩
    ⟨some "Atlantis", none⟩ (fun lat lon u wd h => nomatch h)

end Weather
